import Mathlib

/-!
Verification of the spatial feature-engineering pipeline of the
High-Collision-Risk-Predictor repository.

The development shallowly embeds the Python sources:
  * `src/utils/geo.py`   — geometry adapter (`df_to_points`, `to_projected`,
    `spatial_join_points_to_lines`);
  * `src/data/clean.py`  — dataset cleaners (`clean_collisions`, `clean_construction`);
  * `src/features/build.py` — the feature aggregator of `build_features`
    (group by segment and year, lag features via a grouped one-position shift,
    per-year 0.8-quantile high-risk label).

Modelling conventions:
  * pandas/geopandas tables become Lean lists of records; a nullable cell is an
    `Option`; machine floats become exact rationals (`ℚ`), so the float literal
    `0.8` of the quantile is modelled as the exact `4/5` and shapely's polygonal
    approximation of a buffer is modelled as the exact metric buffer
    (membership ↔ squared distance ≤ radius²);
  * external library functions whose code is not part of the repository
    (pyproj CRS transforms, the pandas datetime parser, `pd.to_numeric`) are
    abstract function parameters of the embedding;
  * `pd.to_datetime(..., errors="coerce")` is the abstract parser returning
    `Option`, failures becoming `none`;
  * Python exceptions (`raise ValueError`) become `Except.error`;
  * pandas `groupby(...).shift(1)` is, for each row, the value carried by the
    closest earlier row of the same group, embedded by an accumulator that keeps
    already-seen rows most-recent-first;
  * `Series.quantile(0.8)` is numpy linear interpolation at virtual index
    `0.8 * (n - 1)` over the sorted values; the sort is `List.insertionSort`
    (any correct sort yields the same sorted value list);
  * the merges of static road attributes and of the construction flag in
    `build_features` join against right-hand tables that are first made unique
    per segment id, so they neither add nor drop rows and only append attribute
    columns that no claim constrains; those columns are not modelled.
-/

namespace RiskPred

/-! ## Geometry adapter: `src/utils/geo.py` -/

/-- Geographic CRS used for raw inputs (`WGS84 = "EPSG:4326"` in `geo.py`). -/
def WGS84 : String := "EPSG:4326"

/-- Fixed projected CRS (`DEFAULT_CRS = "EPSG:26918"` in `geo.py`). -/
def DEFAULT_CRS : String := "EPSG:26918"

/-- A point geometry: x and y coordinates as exact rationals. -/
abbrev Pt : Type := ℚ × ℚ

/-- A geometry-bearing table: a declared reference frame (possibly absent, as for a
GeoDataFrame with `crs=None`) and a list of rows. -/
structure GeoTable (ρ : Type) where
  crs : Option String
  rows : List ρ
deriving DecidableEq

/-- Translation of `df_to_points` (`geo.py` lines 19–27): rows where either the
longitude cell or the latitude cell is missing are dropped (`df.loc[~missing]`),
and each kept row receives the point built from its two coordinate cells
(`points_from_xy`); the result carries the given CRS.  The table is abstracted by
its row type `ρ` together with the two column accessors. -/
def df_to_points (lonOf latOf : ρ → Option ℚ) (rows : List ρ) (crs : String) :
    GeoTable (ρ × Pt) :=
  { crs := some crs
    rows := rows.filterMap fun r =>
      match lonOf r, latOf r with
      | some x, some y => some (r, (x, y))
      | _, _ => none }

/-- Translation of `to_projected` (`geo.py` lines 29–35).  `T src tgt` is the
external pyproj coordinate transform used by `gdf.to_crs`; the repository never
defines it, so it is an abstract parameter.  A missing CRS raises; an already
matching CRS returns the input unchanged; otherwise every geometry is transformed
and the declared CRS becomes the target. -/
def to_projected (T : String → String → Pt → Pt) (gdf : GeoTable (ρ × Pt))
    (crs : String) : Except String (GeoTable (ρ × Pt)) :=
  match gdf.crs with
  | none => .error "GeoDataFrame missing CRS; cannot project"
  | some c =>
      if c = crs then .ok gdf
      else .ok { crs := some crs, rows := gdf.rows.map fun pr => (pr.1, T c crs pr.2) }

/-- A polyline geometry, given by its vertices. -/
abbrev Polyline : Type := List Pt

/-- Squared euclidean distance between two points. -/
def dist2 (p q : Pt) : ℚ := (p.1 - q.1) ^ 2 + (p.2 - q.2) ^ 2

/-- Squared distance from point `p` to the closed segment from `a` to `b`
(orthogonal projection clamped to the segment). -/
def segDist2 (p a b : Pt) : ℚ :=
  let d := dist2 a b
  if d = 0 then dist2 p a
  else
    let t := ((p.1 - a.1) * (b.1 - a.1) + (p.2 - a.2) * (b.2 - a.2)) / d
    let tc := max 0 (min 1 t)
    dist2 p (a.1 + tc * (b.1 - a.1), a.2 + tc * (b.2 - a.2))

/-- Squared distance from a point to a polyline (minimum over its segments;
`none` for an empty vertex list). -/
def polyDist2 (p : Pt) : Polyline → Option ℚ
  | [] => none
  | [a] => some (dist2 p a)
  | a :: b :: rest =>
      match polyDist2 p (b :: rest) with
      | none => some (segDist2 p a b)
      | some d => some (min (segDist2 p a b) d)

/-- Shapely `point.intersects(line)` for an unbuffered polyline: the point lies on
the polyline, i.e. its distance to it is zero. -/
def intersectsLine (p : Pt) (l : Polyline) : Bool :=
  polyDist2 p l = some (0 : ℚ)

/-- Shapely `point.intersects(line.buffer(b))`, with the buffer modelled as the
exact metric buffer: the squared distance from the point to the polyline is at
most `b²`. -/
def intersectsBuffered (b : ℚ) (p : Pt) (l : Polyline) : Bool :=
  match polyDist2 p l with
  | none => false
  | some d => d ≤ b ^ 2

/-- The `how` argument of `gpd.sjoin`. -/
inductive JoinHow
  | left
  | inner
deriving DecidableEq

/-- Translation of `gpd.sjoin(points, lines, how=how, predicate="intersects")`:
for each point, one output row per intersecting line (fan-out, not deduplicated);
a point with no intersecting line yields a row with a null line id under `left`
and is dropped under `inner`.  Points are (point id, geometry) pairs and lines
are (line id, geometry) pairs. -/
def sjoin (pred : Pt → Polyline → Bool) (how : JoinHow)
    (points : List (ℕ × Pt)) (lines : List (ℕ × Polyline)) :
    List (ℕ × Option ℕ) :=
  points.flatMap fun pr =>
    let ms := lines.filter fun lr => pred pr.2 lr.2
    if ms.isEmpty then
      match how with
      | .left => [(pr.1, none)]
      | .inner => []
    else
      ms.map fun lr => (pr.1, some lr.1)

/-- Translation of `spatial_join_points_to_lines` (`geo.py` lines 37–58): a CRS
mismatch raises; when `buffer_m` is truthy and positive the lines are buffered by
`buffer_m` before the intersects join, otherwise the unbuffered lines are used. -/
def spatial_join_points_to_lines (points : GeoTable (ℕ × Pt))
    (lines : GeoTable (ℕ × Polyline)) (buffer_m : ℚ) (how : JoinHow) :
    Except String (List (ℕ × Option ℕ)) :=
  if points.crs ≠ lines.crs then
    .error "points and lines must share CRS before joining"
  else if buffer_m ≠ 0 ∧ 0 < buffer_m then
    .ok (sjoin (intersectsBuffered buffer_m) how points.rows lines.rows)
  else
    .ok (sjoin intersectsLine how points.rows lines.rows)

/-- Number of (point, line) matches in a join result: output rows whose line id
is not null. -/
def matchedPairs (rows : List (ℕ × Option ℕ)) : ℕ :=
  rows.countP fun r => r.2.isSome

/-! ## Dataset cleaners: `src/data/clean.py` -/

/-- The ordered longitude-column candidates of `clean_construction`
(`clean.py` line 92). -/
def lonCandidates : List String := ["X", "Longitude", "LONG", "lon"]

/-- The ordered latitude-column candidates of `clean_construction`
(`clean.py` line 93). -/
def latCandidates : List String := ["Y", "Latitude", "LAT", "lat"]

/-- A raw construction table: the set of column names present, and one cell
accessor per row (a missing cell, pandas `NaN`, is `none`).  Only the coordinate
columns carry values the claims constrain, so cells are rationals. -/
structure ConstructionTable where
  cols : List String
  rows : List (String → Option ℚ)

/-- Translation of `clean_construction` (`clean.py` lines 87–98), minus the
`TARGETED_START` date parse which touches no column a claim mentions: resolve the
longitude and latitude columns as the first candidate present (`next(...)`),
raise when either is unresolved, then convert to points in `WGS84` and reproject
to `DEFAULT_CRS`.  The result also reports the two resolved column names. -/
def clean_construction (T : String → String → Pt → Pt) (t : ConstructionTable) :
    Except String (String × String × GeoTable ((String → Option ℚ) × Pt)) :=
  match lonCandidates.find? (fun c => decide (c ∈ t.cols)),
        latCandidates.find? (fun c => decide (c ∈ t.cols)) with
  | some lonCol, some latCol => do
      let gdf := df_to_points (fun r => r lonCol) (fun r => r latCol) t.rows WGS84
      let gdf ← to_projected T gdf DEFAULT_CRS
      return (lonCol, latCol, gdf)
  | _, _ => .error "Construction data must have X/Y or Longitude/Latitude columns"

/-- The components pandas exposes on one parsed datetime: the `.dt.year`,
`.dt.month` and `.dt.dayofweek` accessors read by `clean_collisions`, plus the
clock hour of the timestamp (which `clean_collisions` never reads). -/
structure ParsedDate where
  year : Int
  month : Int
  dow : Int
  hourOfDay : Int
deriving DecidableEq

/-- A raw collision row: the raw `Accident_Date` cell, the raw `Hour` cell
(`none` = missing), and the two coordinate cells. -/
structure CollisionRow where
  accidentDateRaw : String
  hourRaw : Option String
  lon : Option ℚ
  lat : Option ℚ
deriving DecidableEq

/-- A raw collision table; `hasHourCol` records whether the optional `Hour`
column exists at all (`df.get("Hour", pd.NA)`). -/
structure CollisionsTable where
  hasHourCol : Bool
  rows : List CollisionRow

/-- A cleaned collision row before point conversion: the derived date fields,
each `none` when the accident date failed to parse, the numeric hour, and the
coordinates carried through. -/
structure CleanCollisionRow where
  year : Option Int
  month : Option Int
  dow : Option Int
  hour : Option ℚ
  lon : Option ℚ
  lat : Option ℚ
deriving DecidableEq

/-- Translation of `clean_collisions` (`clean.py` lines 21–45).  `parse` is the
external `pd.to_datetime(..., errors="coerce")` (failures are `none`, never an
error) and `toNum` the external `pd.to_numeric(..., errors="coerce")`.  Year,
month and day-of-week are read off the parsed accident date; the hour is the
numeric coercion of the separate `Hour` column (all-missing when that column is
absent).  Rows are then converted to points in `WGS84` and reprojected to
`DEFAULT_CRS` exactly as in the source.  The categorical upper-casing and the
fatality/injury count resolution of lines 30–41 touch only columns no claim
about this function mentions and are not modelled.  The per-row derived fields
are factored into `cleanCollisionRowOf`. -/
def cleanCollisionRowOf (parse : String → Option ParsedDate)
    (toNum : String → Option ℚ) (hasHourCol : Bool) (r : CollisionRow) :
    CleanCollisionRow :=
  { year := (parse r.accidentDateRaw).map (·.year)
    month := (parse r.accidentDateRaw).map (·.month)
    dow := (parse r.accidentDateRaw).map (·.dow)
    hour := if hasHourCol then r.hourRaw.bind toNum else none
    lon := r.lon
    lat := r.lat }

def clean_collisions (T : String → String → Pt → Pt)
    (parse : String → Option ParsedDate) (toNum : String → Option ℚ)
    (t : CollisionsTable) : Except String (GeoTable (CleanCollisionRow × Pt)) :=
  let cleaned := t.rows.map (cleanCollisionRowOf parse toNum t.hasHourCol)
  let gdf := df_to_points (fun r => r.lon) (fun r => r.lat) cleaned WGS84
  to_projected T gdf DEFAULT_CRS

/-! ## Feature aggregator: `src/features/build.py` -/

/-- One row of the joined event table fed to the aggregation of `build_features`
(line 68): the segment id attached by the left spatial join (`none` when the
event matched no segment), the `year` derived by `clean_collisions` (`none` when
the accident date failed to parse), and the resolved severity counts. -/
structure JoinedRow where
  segId : Option ℕ
  year : Option Int
  fatal : Int
  inj : Int
deriving DecidableEq

/-- The (segment id, year) group key of a joined row; `none` when either
component is missing, in which case pandas `groupby` drops the row. -/
def keyOf (r : JoinedRow) : Option (ℕ × Int) :=
  match r.segId, r.year with
  | some s, some y => some (s, y)
  | _, _ => none

/-- One row of the aggregate produced by lines 68–78 of `build.py`: per
(segment, year) group, the number of events and the summed severity counts. -/
structure AggRow where
  segId : ℕ
  year : Int
  collisions_total : ℕ
  fatal_major : Int
  injuries_total : Int
deriving DecidableEq

/-- Translation of the `groupby(["RD_SEGMENT_ID", "year"]).agg` block
(`build.py` lines 68–78): one output row per distinct non-null (segment, year)
key; `collisions_total` counts the group's rows (the summed constant-1 column)
and the severity columns are the group sums.  Rows with a null key are dropped
by pandas `groupby`. -/
def groupAgg (joined : List JoinedRow) : List AggRow :=
  ((joined.filterMap keyOf).dedup).map fun k =>
    let grp := joined.filter fun r => keyOf r = some k
    { segId := k.1
      year := k.2
      collisions_total := grp.length
      fatal_major := (grp.map (·.fatal)).sum
      injuries_total := (grp.map (·.inj)).sum }

/-- The ascending (segment id, year) order of
`df.sort_values(["RD_SEGMENT_ID", "year"])` (`build.py` line 104). -/
def keyLe (a b : AggRow) : Prop :=
  a.segId < b.segId ∨ (a.segId = b.segId ∧ a.year ≤ b.year)

instance : DecidableRel keyLe := fun a b => by
  unfold keyLe; infer_instance

instance : IsTotal AggRow keyLe := ⟨by intro a b; unfold keyLe; omega⟩

instance : IsTrans AggRow keyLe := ⟨by intro a b c; unfold keyLe; omega⟩

/-- `df.sort_values(["RD_SEGMENT_ID", "year"])`: group keys are unique after
`groupby`, so any correct sort produces the same table. -/
def sortSegYear (l : List AggRow) : List AggRow :=
  List.insertionSort keyLe l

/-- One row of the final segment-year table. -/
structure FeatRow where
  segId : ℕ
  year : Int
  collisions_total : ℕ
  fatal_major : Int
  injuries_total : Int
  collisions_prev_year : ℕ
  fatal_prev_year : Int
  injuries_prev_year : Int
  high_risk : ℕ
deriving DecidableEq

/-- Attach the lag columns to one row: the lag values come from the closest
earlier row of the same segment (`groupby("RD_SEGMENT_ID").shift(1)`), with the
leading `NaN` of each group replaced by zero (`fillna(0).astype(int)`,
`build.py` lines 104–115).  `high_risk` is a placeholder zero until labelling. -/
def mkLagged (r : AggRow) (prev : Option AggRow) : FeatRow :=
  { segId := r.segId
    year := r.year
    collisions_total := r.collisions_total
    fatal_major := r.fatal_major
    injuries_total := r.injuries_total
    collisions_prev_year := (prev.map (·.collisions_total)).getD 0
    fatal_prev_year := (prev.map (·.fatal_major)).getD 0
    injuries_prev_year := (prev.map (·.injuries_total)).getD 0
    high_risk := 0 }

/-- Accumulator pass for the grouped shift: `seen` holds the rows already
emitted, most recent first, so `find?` returns the closest earlier row of the
same segment — exactly the row whose values `shift(1)` carries forward. -/
def addLagsAux (seen : List AggRow) : List AggRow → List FeatRow
  | [] => []
  | r :: rest =>
      mkLagged r (seen.find? fun s => s.segId = r.segId) :: addLagsAux (r :: seen) rest

/-- The lag-feature computation of `build.py` lines 104–115 (after sorting). -/
def addLags (l : List AggRow) : List FeatRow :=
  addLagsAux [] l

/-- Translation of `Series.quantile(0.8)` (numpy linear interpolation, the
pandas default) over the collision totals of one year cohort: with `s` the
sorted values and `n` their number, the virtual index is `0.8 * (n - 1)`; the
value is interpolated between the floor and ceiling positions.  The float
literal `0.8` is modelled as the exact `4/5`. -/
def quantile08 (vals : List ℕ) : ℚ :=
  let s := List.insertionSort (· ≤ ·) vals
  let n := vals.length
  let a := 4 * (n - 1)
  let lo := a / 5
  let hi := (a + 4) / 5
  let g : ℚ := (a : ℚ) / 5 - (lo : ℚ)
  (s.getD lo 0 : ℚ) + g * ((s.getD hi 0 : ℚ) - (s.getD lo 0 : ℚ))

/-- The current-year collision totals of the year-`y` cohort of a table: the
`g["collisions_total"]` series of the `df.groupby("year")` group. -/
def cohortTotals (l : List FeatRow) (y : Int) : List ℕ :=
  (l.filter fun r => r.year = y).map (·.collisions_total)

/-- Translation of the labelling loop of `build.py` lines 117–123: per year
group the threshold is the 0.8 quantile of the group's `collisions_total`, and a
row is labelled 1 exactly when its total is at or above its own year's
threshold (`(g["collisions_total"] >= threshold).astype(int)`); the
concatenation re-sorted by the original index reassembles the per-row labels,
so each row receives the label computed from its own year cohort. -/
def addLabels (l : List FeatRow) : List FeatRow :=
  l.map fun r =>
    { r with high_risk :=
        if quantile08 (cohortTotals l r.year) ≤ (r.collisions_total : ℚ) then 1 else 0 }

/-- The aggregation-to-label portion of `build_features` (`build.py` lines
68–125), starting from the joined event table.  The merges of static road
attributes (lines 80–91), of the construction flag (lines 93–97) and the
numeric zero-fill (lines 99–101) join right-hand tables first made unique per
segment id, so they preserve the row list and only append attribute columns no
claim constrains; they are not modelled. -/
def build_segment_year (joined : List JoinedRow) : List FeatRow :=
  addLabels (addLags (sortSegYear (groupAgg joined)))

/-- Concrete joined table for the lag scenario of the spec: segment 7 with 5
associated events in year 1 and 8 in year 2. -/
def lagScenario : List JoinedRow :=
  List.replicate 5 ⟨some 7, some 1, 0, 0⟩ ++ List.replicate 8 ⟨some 7, some 2, 0, 0⟩

/-! ## Helper lemmas: geometry adapter -/

lemma df_to_points_length_add_countP (lonOf latOf : ρ → Option ℚ) (rows : List ρ)
    (crs : String) :
    (df_to_points lonOf latOf rows crs).rows.length
      + rows.countP (fun r => (lonOf r).isNone || (latOf r).isNone) = rows.length := by
  induction rows with
  | nil => simp [df_to_points]
  | cons r rest ih =>
      simp only [df_to_points, List.filterMap_cons, List.countP_cons] at ih ⊢
      cases hl : lonOf r <;> cases ht : latOf r <;>
        simp [hl, ht] <;> omega

lemma matchedPairs_sjoin (pred : Pt → Polyline → Bool) (how : JoinHow)
    (pts : List (ℕ × Pt)) (lns : List (ℕ × Polyline)) :
    matchedPairs (sjoin pred how pts lns)
      = (pts.map fun pr => lns.countP fun lr => pred pr.2 lr.2).sum := by
  unfold matchedPairs sjoin
  rw [List.countP_flatMap]
  congr 1
  apply List.map_congr_left
  intro pr _
  simp only [Function.comp]
  by_cases h : (lns.filter fun lr => pred pr.2 lr.2).isEmpty
  · rw [if_pos h]
    have hz : (lns.countP fun lr => pred pr.2 lr.2) = 0 := by
      rw [List.countP_eq_length_filter, List.isEmpty_iff.mp h]
      rfl
    cases how <;> simp [hz]
  · rw [if_neg h, List.countP_map]
    have hall : List.countP
        ((fun r : ℕ × Option ℕ => r.2.isSome) ∘ fun lr : ℕ × Polyline => (pr.1, some lr.1))
        (lns.filter fun lr => pred pr.2 lr.2)
        = (lns.filter fun lr => pred pr.2 lr.2).length :=
      List.countP_eq_length.mpr fun a _ => by simp [Function.comp]
    rw [hall, ← List.countP_eq_length_filter]

lemma matchedPairs_sjoin_mono (pred1 pred2 : Pt → Polyline → Bool)
    (h : ∀ p l, pred1 p l = true → pred2 p l = true) (how : JoinHow)
    (pts : List (ℕ × Pt)) (lns : List (ℕ × Polyline)) :
    matchedPairs (sjoin pred1 how pts lns) ≤ matchedPairs (sjoin pred2 how pts lns) := by
  rw [matchedPairs_sjoin, matchedPairs_sjoin]
  apply List.sum_le_sum
  intro pr _
  exact List.countP_mono_left fun lr _ hp => h _ _ hp

/-! ## Claim theorems: geometry adapter -/

/-- C3: the output row count of `df_to_points` is the input row count minus the
number of rows with a missing longitude or latitude (those rows are filtered
out), and every output geometry's x and y coordinates are exactly the row's
source longitude and latitude cells. -/
theorem df_to_points_count_and_coords (lonOf latOf : ρ → Option ℚ)
    (rows : List ρ) (crs : String) :
    (df_to_points lonOf latOf rows crs).rows.length
        = rows.length - rows.countP (fun r => (lonOf r).isNone || (latOf r).isNone)
    ∧ ∀ pr ∈ (df_to_points lonOf latOf rows crs).rows,
        lonOf pr.1 = some pr.2.1 ∧ latOf pr.1 = some pr.2.2 := by
  constructor
  · have h := df_to_points_length_add_countP lonOf latOf rows crs
    omega
  · intro pr hpr
    simp only [df_to_points] at hpr
    obtain ⟨r, _, hr⟩ := List.mem_filterMap.mp hpr
    cases hl : lonOf r <;> cases ht : latOf r <;> rw [hl, ht] at hr <;>
      simp only [Option.some.injEq, reduceCtorEq] at hr
    obtain rfl := hr.symm
    exact ⟨hl, ht⟩

/-- Witness for C3 at a concrete two-row table with one missing coordinate. -/
theorem df_to_points_count_and_coords_witness :
    (((some 3, some 4) : Option ℚ × Option ℚ), ((3 : ℚ), (4 : ℚ)))
        ∈ (df_to_points Prod.fst Prod.snd
            [((some 3, some 4) : Option ℚ × Option ℚ), (none, some 5)] WGS84).rows
    ∧ Prod.fst (((some 3, some 4)) : Option ℚ × Option ℚ) = some ((3 : ℚ), (4 : ℚ)).1
    ∧ Prod.snd (((some 3, some 4)) : Option ℚ × Option ℚ) = some ((3 : ℚ), (4 : ℚ)).2 := by
  have hm : (((some 3, some 4) : Option ℚ × Option ℚ), ((3 : ℚ), (4 : ℚ)))
      ∈ (df_to_points Prod.fst Prod.snd
          [((some 3, some 4) : Option ℚ × Option ℚ), (none, some 5)] WGS84).rows := by
    simp [df_to_points]
  have h := (df_to_points_count_and_coords Prod.fst Prod.snd
      [((some 3, some 4) : Option ℚ × Option ℚ), (none, some 5)] WGS84).2 _ hm
  exact ⟨hm, h.1, h.2⟩

/-- C4: with a shared reference frame, a buffer of 0 takes the unbuffered
branch, so the join returns exactly the exact-intersection matches (every
matched pair's point is at distance zero from the matched line); and for
`0 ≤ b₁ ≤ b₂` the number of matched (point, line) pairs at `b₂` is at least
that at `b₁`. -/
theorem spatial_join_buffer_zero_and_monotone (points : GeoTable (ℕ × Pt))
    (lines : GeoTable (ℕ × Polyline)) (how : JoinHow)
    (hcrs : points.crs = lines.crs) :
    (spatial_join_points_to_lines points lines 0 how
        = .ok (sjoin intersectsLine how points.rows lines.rows))
    ∧ (∀ pr ∈ sjoin intersectsLine how points.rows lines.rows, ∀ lid,
        pr.2 = some lid → ∃ p ∈ points.rows, ∃ l ∈ lines.rows,
          pr.1 = p.1 ∧ lid = l.1 ∧ polyDist2 p.2 l.2 = some 0)
    ∧ (∀ b1 b2 : ℚ, 0 ≤ b1 → b1 ≤ b2 →
        ∀ r1 r2, spatial_join_points_to_lines points lines b1 how = .ok r1 →
          spatial_join_points_to_lines points lines b2 how = .ok r2 →
          matchedPairs r1 ≤ matchedPairs r2) := by
  have hbranch : ∀ b : ℚ, 0 < b →
      spatial_join_points_to_lines points lines b how
        = .ok (sjoin (intersectsBuffered b) how points.rows lines.rows) := by
    intro b hb
    unfold spatial_join_points_to_lines
    rw [if_neg (by simp [hcrs]), if_pos ⟨ne_of_gt hb, hb⟩]
  have hzero : spatial_join_points_to_lines points lines 0 how
      = .ok (sjoin intersectsLine how points.rows lines.rows) := by
    unfold spatial_join_points_to_lines
    rw [if_neg (by simp [hcrs]), if_neg (by simp)]
  refine ⟨hzero, ?_, ?_⟩
  · intro pr hpr lid hlid
    obtain ⟨p, hp, hmem⟩ := List.mem_flatMap.mp hpr
    by_cases he : (lines.rows.filter fun lr => intersectsLine p.2 lr.2).isEmpty
    · rw [if_pos he] at hmem
      cases how <;> simp_all
    · rw [if_neg he] at hmem
      obtain ⟨lr, hlr, heq⟩ := List.mem_map.mp hmem
      obtain ⟨hlmem, hpred⟩ := List.mem_filter.mp hlr
      refine ⟨p, hp, lr, hlmem, ?_, ?_, ?_⟩
      · rw [← heq]
      · rw [← heq] at hlid
        simpa using hlid.symm
      · simpa [intersectsLine] using hpred
  · intro b1 b2 hb1 hb12 r1 r2 h1 h2
    rcases eq_or_lt_of_le hb1 with hb1z | hb1pos
    · subst hb1z
      rw [hzero] at h1
      obtain rfl := Except.ok.inj h1
      rcases eq_or_lt_of_le hb12 with hb2z | hb2pos
      · subst hb2z
        rw [hzero] at h2
        obtain rfl := Except.ok.inj h2
        exact le_refl _
      · rw [hbranch b2 hb2pos] at h2
        obtain rfl := Except.ok.inj h2
        apply matchedPairs_sjoin_mono
        intro p l hp
        simp only [intersectsLine, decide_eq_true_eq] at hp
        unfold intersectsBuffered
        rw [hp]
        simp only [decide_eq_true_eq]
        positivity
    · rw [hbranch b1 hb1pos] at h1
      rw [hbranch b2 (lt_of_lt_of_le hb1pos hb12)] at h2
      obtain rfl := Except.ok.inj h1
      obtain rfl := Except.ok.inj h2
      apply matchedPairs_sjoin_mono
      intro p l hp
      unfold intersectsBuffered at hp ⊢
      cases hd : polyDist2 p l with
      | none => rw [hd] at hp; simp at hp
      | some d =>
          rw [hd] at hp
          simp only [decide_eq_true_eq] at hp ⊢
          calc d ≤ b1 ^ 2 := hp
            _ ≤ b2 ^ 2 := pow_le_pow_left₀ hb1pos.le hb12 2

/-- Witness for C4: two points and one line segment in the projected frame,
buffers 0 and 12. -/
theorem spatial_join_buffer_zero_and_monotone_witness :
    spatial_join_points_to_lines
        ⟨some DEFAULT_CRS, [(1, ((0 : ℚ), (0 : ℚ))), (2, ((100 : ℚ), (100 : ℚ)))]⟩
        ⟨some DEFAULT_CRS, [(5, [((0 : ℚ), (0 : ℚ)), ((10 : ℚ), (0 : ℚ))])]⟩ 0 .left
      = .ok (sjoin intersectsLine .left
          [(1, ((0 : ℚ), (0 : ℚ))), (2, ((100 : ℚ), (100 : ℚ)))]
          [(5, [((0 : ℚ), (0 : ℚ)), ((10 : ℚ), (0 : ℚ))])])
    ∧ matchedPairs (sjoin intersectsLine .left
          [(1, ((0 : ℚ), (0 : ℚ))), (2, ((100 : ℚ), (100 : ℚ)))]
          [(5, [((0 : ℚ), (0 : ℚ)), ((10 : ℚ), (0 : ℚ))])])
        ≤ matchedPairs (sjoin (intersectsBuffered 12) .left
          [(1, ((0 : ℚ), (0 : ℚ))), (2, ((100 : ℚ), (100 : ℚ)))]
          [(5, [((0 : ℚ), (0 : ℚ)), ((10 : ℚ), (0 : ℚ))])]) := by
  have h := spatial_join_buffer_zero_and_monotone
      ⟨some DEFAULT_CRS, [(1, ((0 : ℚ), (0 : ℚ))), (2, ((100 : ℚ), (100 : ℚ)))]⟩
      ⟨some DEFAULT_CRS, [(5, [((0 : ℚ), (0 : ℚ)), ((10 : ℚ), (0 : ℚ))])]⟩ .left rfl
  refine ⟨h.1, h.2.2 0 12 (by norm_num) (by norm_num) _ _ h.1 ?_⟩
  unfold spatial_join_points_to_lines
  rw [if_neg (by simp), if_pos (by norm_num)]

/-- C5: `to_projected` is a no-op when the declared frame already equals the
target; projecting is idempotent; and when the declared frame differs and the
external transform moves every point, every output coordinate pair differs from
its input coordinate pair. -/
theorem to_projected_noop_idempotent_changes (T : String → String → Pt → Pt)
    {ρ : Type} (gdf : GeoTable (ρ × Pt)) (crs : String) :
    (gdf.crs = some crs → to_projected T gdf crs = .ok gdf)
    ∧ (∀ gdf', to_projected T gdf crs = .ok gdf' → to_projected T gdf' crs = .ok gdf')
    ∧ (∀ c, gdf.crs = some c → c ≠ crs → (∀ p : Pt, T c crs p ≠ p) →
        ∀ gdf', to_projected T gdf crs = .ok gdf' →
          gdf'.rows.length = gdf.rows.length
          ∧ ∀ i (h1 : i < gdf'.rows.length) (h2 : i < gdf.rows.length),
              (gdf'.rows.get ⟨i, h1⟩).2 ≠ (gdf.rows.get ⟨i, h2⟩).2) := by
  refine ⟨?_, ?_, ?_⟩
  · intro h
    simp [to_projected, h]
  · intro gdf' h
    cases hc : gdf.crs with
    | none =>
        simp only [to_projected, hc] at h
        exact Except.noConfusion h
    | some c =>
        simp only [to_projected, hc] at h
        by_cases hceq : c = crs
        · rw [if_pos hceq] at h
          obtain rfl := Except.ok.inj h
          simp [to_projected, hc, hceq]
        · rw [if_neg hceq] at h
          obtain rfl := Except.ok.inj h
          simp [to_projected]
  · intro c hc hne hT gdf' h
    simp only [to_projected, hc, if_neg hne] at h
    obtain rfl := Except.ok.inj h
    refine ⟨by simp, ?_⟩
    intro i h1 h2
    simp only [List.get_eq_getElem, List.getElem_map]
    exact fun heq => hT (gdf.rows[i]).2 heq

/-- Witness for C5: a translation transform, a one-row table in the geographic
frame projected to the projected frame, and a table already in the target
frame. -/
theorem to_projected_noop_idempotent_changes_witness :
    to_projected (fun _ _ p => (p.1 + 1, p.2))
        ({ crs := some DEFAULT_CRS, rows := [((0 : ℕ), ((1 : ℚ), (2 : ℚ)))] } :
          GeoTable (ℕ × Pt)) DEFAULT_CRS
      = .ok { crs := some DEFAULT_CRS, rows := [((0 : ℕ), ((1 : ℚ), (2 : ℚ)))] }
    ∧ (({ crs := some DEFAULT_CRS, rows := [((0 : ℕ), ((2 : ℚ), (2 : ℚ)))] } :
          GeoTable (ℕ × Pt)).rows.get ⟨0, by decide⟩).2
        ≠ (({ crs := some WGS84, rows := [((0 : ℕ), ((1 : ℚ), (2 : ℚ)))] } :
          GeoTable (ℕ × Pt)).rows.get ⟨0, by decide⟩).2 := by
  constructor
  · exact (to_projected_noop_idempotent_changes (fun _ _ p => (p.1 + 1, p.2))
      { crs := some DEFAULT_CRS, rows := [((0 : ℕ), ((1 : ℚ), (2 : ℚ)))] } DEFAULT_CRS).1 rfl
  · have h := (to_projected_noop_idempotent_changes (fun _ _ p => (p.1 + 1, p.2))
        ({ crs := some WGS84, rows := [((0 : ℕ), ((1 : ℚ), (2 : ℚ)))] } :
          GeoTable (ℕ × Pt)) DEFAULT_CRS).2.2 WGS84 rfl (by decide)
        (fun p hp => by
          have h1 := congrArg Prod.fst hp
          simp at h1)
        { crs := some DEFAULT_CRS, rows := [((0 : ℕ), ((2 : ℚ), (2 : ℚ)))] }
        (by simp only [to_projected]
            rw [if_neg (by decide)]
            norm_num)
    exact h.2 0 (by decide) (by decide)

/-! ## Helper lemmas: cleaners -/

lemma find?_eq_some_first (p : α → Bool) (l : List α) (a : α)
    (h : l.find? p = some a) :
    ∃ i, ∃ hi : i < l.length, l[i] = a ∧ p a = true
      ∧ ∀ j (hj : j < l.length), j < i → p (l[j]) = false := by
  induction l with
  | nil => simp at h
  | cons b rest ih =>
      by_cases hb : p b
      · rw [List.find?_cons_of_pos _ hb] at h
        obtain rfl := Option.some.inj h
        exact ⟨0, by simp, by simp, hb, fun j hj hj0 => absurd hj0 (Nat.not_lt_zero j)⟩
      · rw [List.find?_cons_of_neg _ hb] at h
        obtain ⟨i, hi, hget, hpa, hfirst⟩ := ih h
        refine ⟨i + 1, by simpa using Nat.succ_lt_succ hi, by simpa using hget, hpa, ?_⟩
        intro j hj hji
        cases j with
        | zero => simpa using (Bool.not_eq_true _).mp hb
        | succ j' =>
            have hj' : j' < rest.length := by simp at hj; omega
            simpa using hfirst j' hj' (by omega)

/-! ## Claim theorems: cleaners -/

/-- C6: the construction cleaner raises on a table containing none of the
recognized coordinate column names, and on a table containing a longitude
candidate and a latitude candidate it succeeds, resolving each coordinate to the
first matching name of its ordered candidate list. -/
theorem clean_construction_missing_and_resolution (T : String → String → Pt → Pt)
    (t : ConstructionTable) :
    ((∀ c ∈ lonCandidates ++ latCandidates, c ∉ t.cols) →
      clean_construction T t
        = .error "Construction data must have X/Y or Longitude/Latitude columns")
    ∧ (∀ lc ∈ lonCandidates, lc ∈ t.cols → ∀ tc ∈ latCandidates, tc ∈ t.cols →
        ∃ lonCol latCol gdf, clean_construction T t = .ok (lonCol, latCol, gdf)
          ∧ (∃ i, ∃ hi : i < lonCandidates.length, lonCandidates[i] = lonCol
              ∧ lonCol ∈ t.cols
              ∧ ∀ j (hj : j < lonCandidates.length), j < i → lonCandidates[j] ∉ t.cols)
          ∧ (∃ i, ∃ hi : i < latCandidates.length, latCandidates[i] = latCol
              ∧ latCol ∈ t.cols
              ∧ ∀ j (hj : j < latCandidates.length), j < i → latCandidates[j] ∉ t.cols)) := by
  constructor
  · intro hnone
    have hlon : lonCandidates.find? (fun c => decide (c ∈ t.cols)) = none :=
      List.find?_eq_none.mpr fun c hc => by
        simpa using hnone c (List.mem_append_left _ hc)
    have hlat : latCandidates.find? (fun c => decide (c ∈ t.cols)) = none :=
      List.find?_eq_none.mpr fun c hc => by
        simpa using hnone c (List.mem_append_right _ hc)
    rw [clean_construction, hlon, hlat]
  · intro lc hlc hlcmem tc htc htcmem
    have hlon : (lonCandidates.find? (fun c => decide (c ∈ t.cols))).isSome :=
      List.find?_isSome.mpr ⟨lc, hlc, by simpa using hlcmem⟩
    have hlat : (latCandidates.find? (fun c => decide (c ∈ t.cols))).isSome :=
      List.find?_isSome.mpr ⟨tc, htc, by simpa using htcmem⟩
    obtain ⟨lonCol, hlonEq⟩ := Option.isSome_iff_exists.mp hlon
    obtain ⟨latCol, hlatEq⟩ := Option.isSome_iff_exists.mp hlat
    obtain ⟨i, hi, hgetl, hpal, hfirstl⟩ := find?_eq_some_first _ _ _ hlonEq
    obtain ⟨i', hi', hgett, hpat, hfirstt⟩ := find?_eq_some_first _ _ _ hlatEq
    refine ⟨lonCol, latCol,
      { crs := some DEFAULT_CRS,
        rows := (df_to_points (fun r => r lonCol) (fun r => r latCol) t.rows WGS84).rows.map
          fun pr => (pr.1, T WGS84 DEFAULT_CRS pr.2) }, ?_, ?_, ?_⟩
    · rw [clean_construction, hlonEq, hlatEq]
      simp only [to_projected, df_to_points]
      rw [if_neg (by decide)]
      rfl
    · exact ⟨i, hi, hgetl, by simpa using hpal,
        fun j hj hji => by simpa using hfirstl j hj hji⟩
    · exact ⟨i', hi', hgett, by simpa using hpat,
        fun j hj hji => by simpa using hfirstt j hj hji⟩

/-- Witness for C6: a table with neither naming convention raises, and a table
with columns `["foo", "Longitude", "lat"]` resolves to `Longitude`/`lat`. -/
theorem clean_construction_witness :
    clean_construction (fun _ _ p => p) ⟨["foo", "bar"], []⟩
        = .error "Construction data must have X/Y or Longitude/Latitude columns"
    ∧ ∃ gdf, clean_construction (fun _ _ p => p) ⟨["foo", "Longitude", "lat"], []⟩
        = .ok ("Longitude", "lat", gdf) := by
  constructor
  · exact (clean_construction_missing_and_resolution (fun _ _ p => p)
      ⟨["foo", "bar"], []⟩).1 (by decide)
  · have h := (clean_construction_missing_and_resolution (fun _ _ p => p)
      ⟨["foo", "Longitude", "lat"], []⟩).2 "Longitude" (by decide) (by decide)
      "lat" (by decide) (by decide)
    obtain ⟨lonCol, latCol, gdf, hok, ⟨i, hi, hgetl, hmeml, hfirstl⟩,
      ⟨i', hi', hgett, hmemt, hfirstt⟩⟩ := h
    have hlon : lonCol = "Longitude" := by
      have hi4 : i < 4 := by simpa [lonCandidates] using hi
      interval_cases i <;>
        simp only [lonCandidates, List.getElem_cons_zero, List.getElem_cons_succ] at hgetl <;>
        subst hgetl <;> first | rfl | (exfalso; revert hmeml; decide)
    have hlat : latCol = "lat" := by
      have hi4 : i' < 4 := by simpa [latCandidates] using hi'
      interval_cases i' <;>
        simp only [latCandidates, List.getElem_cons_zero, List.getElem_cons_succ] at hgett <;>
        subst hgett <;> first | rfl | (exfalso; revert hmemt; decide)
    subst hlon; subst hlat
    exact ⟨gdf, hok⟩

/-- Counterexample to C8: a record whose parsed accident date has clock hour 15
while the separate `Hour` column holds 7 is cleaned to `hour = 7`, so the hour
field is not derived from the parsed accident date. -/
theorem clean_collisions_hour_counterexample :
    clean_collisions (fun _ _ p => p)
        (fun s => if s = "2020-01-01 15:30" then some ⟨2020, 1, 2, 15⟩ else none)
        (fun s => if s = "7" then some ((7 : ℚ)) else none)
        ⟨true, [⟨"2020-01-01 15:30", some "7", some 1, some 2⟩]⟩
      = .ok ⟨some DEFAULT_CRS,
          [(⟨some 2020, some 1, some 2, some 7, some 1, some 2⟩, ((1 : ℚ), (2 : ℚ)))]⟩
    ∧ ((fun s => if s = "2020-01-01 15:30" then some (⟨2020, 1, 2, 15⟩ : ParsedDate) else none)
        "2020-01-01 15:30").map (fun d => (d.hourOfDay : ℚ)) = some 15
    ∧ some ((7 : ℚ)) ≠ some ((15 : ℚ)) := by
  refine ⟨?_, by norm_num, by norm_num⟩
  simp only [clean_collisions, df_to_points, to_projected]
  rw [if_neg (by decide)]
  simp [cleanCollisionRowOf]

/-- C8 (amended): the collision cleaner never errors (unparseable dates become
missing); year, month and day-of-week are derived from the parsed accident
date, all three missing when the parse fails; the hour field is instead the
numeric coercion of the separate `Hour` column (all-missing when that column is
absent); and every output row is the cleaned image of an input row. -/
theorem clean_collisions_date_fields (T : String → String → Pt → Pt)
    (parse : String → Option ParsedDate) (toNum : String → Option ℚ)
    (t : CollisionsTable) :
    (∃ gdf, clean_collisions T parse toNum t = .ok gdf)
    ∧ (∀ r : CollisionRow,
        (cleanCollisionRowOf parse toNum t.hasHourCol r).year
            = (parse r.accidentDateRaw).map (·.year)
        ∧ (cleanCollisionRowOf parse toNum t.hasHourCol r).month
            = (parse r.accidentDateRaw).map (·.month)
        ∧ (cleanCollisionRowOf parse toNum t.hasHourCol r).dow
            = (parse r.accidentDateRaw).map (·.dow)
        ∧ (cleanCollisionRowOf parse toNum t.hasHourCol r).hour
            = (if t.hasHourCol then r.hourRaw.bind toNum else none)
        ∧ (parse r.accidentDateRaw = none →
            (cleanCollisionRowOf parse toNum t.hasHourCol r).year = none
            ∧ (cleanCollisionRowOf parse toNum t.hasHourCol r).month = none
            ∧ (cleanCollisionRowOf parse toNum t.hasHourCol r).dow = none))
    ∧ (∀ gdf, clean_collisions T parse toNum t = .ok gdf →
        ∀ pr ∈ gdf.rows, ∃ r ∈ t.rows,
          pr.1 = cleanCollisionRowOf parse toNum t.hasHourCol r) := by
  have hok : clean_collisions T parse toNum t
      = .ok { crs := some DEFAULT_CRS,
              rows := (df_to_points (fun (r : CleanCollisionRow) => r.lon) (fun r => r.lat)
                  (t.rows.map (cleanCollisionRowOf parse toNum t.hasHourCol)) WGS84).rows.map
                (fun pr => (pr.1, T WGS84 DEFAULT_CRS pr.2)) } := by
    simp only [clean_collisions, to_projected, df_to_points]
    rw [if_neg (by decide)]
  refine ⟨⟨_, hok⟩, ?_, ?_⟩
  · intro r
    refine ⟨rfl, rfl, rfl, rfl, fun h => ?_⟩
    simp [cleanCollisionRowOf, h]
  · intro gdf h pr hpr
    rw [hok] at h
    obtain rfl := Except.ok.inj h
    simp only at hpr
    obtain ⟨pr', hpr', rfl⟩ := List.mem_map.mp hpr
    simp only [df_to_points] at hpr'
    obtain ⟨c, hc, hfc⟩ := List.mem_filterMap.mp hpr'
    obtain ⟨r, hr, rfl⟩ := List.mem_map.mp hc
    cases hl : (cleanCollisionRowOf parse toNum t.hasHourCol r).lon <;>
      cases ht : (cleanCollisionRowOf parse toNum t.hasHourCol r).lat <;>
        rw [hl, ht] at hfc <;> simp only [Option.some.injEq, reduceCtorEq] at hfc
    obtain rfl := hfc.symm
    exact ⟨r, hr, rfl⟩

/-- Witness for C8 (amended) at an all-unparseable parser and a table without
an `Hour` column. -/
theorem clean_collisions_date_fields_witness :
    (∃ gdf, clean_collisions (fun _ _ p => p) (fun _ => none) (fun _ => none)
        ⟨false, [⟨"x", none, some 1, some 2⟩]⟩ = .ok gdf)
    ∧ (cleanCollisionRowOf (fun _ => none) (fun _ => none) false
        ⟨"x", none, some 1, some 2⟩).year = none
    ∧ (cleanCollisionRowOf (fun _ => none) (fun _ => none) false
        ⟨"x", none, some 1, some 2⟩).hour = none := by
  have h := clean_collisions_date_fields (fun _ _ p => p) (fun _ => none) (fun _ => none)
    ⟨false, [⟨"x", none, some 1, some 2⟩]⟩
  exact ⟨h.1, ((h.2.1 ⟨"x", none, some 1, some 2⟩).2.2.2.2 rfl).1,
    (h.2.1 ⟨"x", none, some 1, some 2⟩).2.2.2.1⟩

/-! ## Helper lemmas: feature aggregator -/

lemma cohortTotals_addLabels (l : List FeatRow) (y : Int) :
    cohortTotals (addLabels l) y = cohortTotals l y := by
  unfold cohortTotals addLabels
  rw [List.filter_map, List.map_map]
  rfl

lemma addLagsAux_length (seen l : List AggRow) :
    (addLagsAux seen l).length = l.length := by
  induction l generalizing seen with
  | nil => rfl
  | cons r rest ih => simp [addLagsAux, ih]

lemma addLags_length (l : List AggRow) : (addLags l).length = l.length :=
  addLagsAux_length [] l

lemma addLagsAux_get (l : List AggRow) :
    ∀ (seen : List AggRow) (i : ℕ) (h1 : i < (addLagsAux seen l).length)
      (h2 : i < l.length),
      (addLagsAux seen l).get ⟨i, h1⟩
        = mkLagged (l.get ⟨i, h2⟩)
            (((l.take i).reverse ++ seen).find?
              fun s => decide (s.segId = (l.get ⟨i, h2⟩).segId)) := by
  induction l with
  | nil => intro seen i h1 h2; exact absurd h2 (by simp)
  | cons r rest ih =>
      intro seen i h1 h2
      cases i with
      | zero => rfl
      | succ i' =>
          have h2' : i' < rest.length := by simpa using h2
          have h1' : i' < (addLagsAux (r :: seen) rest).length := by
            rw [addLagsAux_length]; exact h2'
          have hlhs : (addLagsAux seen (r :: rest)).get ⟨i' + 1, h1⟩
              = (addLagsAux (r :: seen) rest).get ⟨i', h1'⟩ := rfl
          rw [hlhs, ih (r :: seen) i' h1' h2']
          have hlist : ((r :: rest).take (i' + 1)).reverse ++ seen
              = (rest.take i').reverse ++ (r :: seen) := by
            rw [List.take_succ_cons, List.reverse_cons, List.append_assoc,
              List.singleton_append]
          rw [hlist]
          rfl

lemma addLags_get (l : List AggRow) (i : ℕ) (h1 : i < (addLags l).length)
    (h2 : i < l.length) :
    (addLags l).get ⟨i, h1⟩
      = mkLagged (l.get ⟨i, h2⟩)
          ((l.take i).reverse.find?
            fun s => decide (s.segId = (l.get ⟨i, h2⟩).segId)) := by
  have h := addLagsAux_get l [] i (by simpa [addLags] using h1) h2
  simpa [addLags] using h

lemma sortSegYear_sorted (l : List AggRow) : List.Sorted keyLe (sortSegYear l) :=
  List.sorted_insertionSort keyLe l

lemma sortSegYear_perm (l : List AggRow) : (sortSegYear l).Perm l :=
  List.perm_insertionSort keyLe l

lemma sorted_segId_mono {l : List AggRow} (hs : List.Sorted keyLe l)
    (i j : ℕ) (hi : i < l.length) (hj : j < l.length) (hij : i ≤ j) :
    (l.get ⟨i, hi⟩).segId ≤ (l.get ⟨j, hj⟩).segId := by
  rcases eq_or_lt_of_le hij with rfl | hlt
  · exact le_refl _
  · have h := List.pairwise_iff_getElem.mp hs i j hi hj hlt
    unfold keyLe at h
    simp only [List.get_eq_getElem]
    rcases h with h | ⟨h, _⟩ <;> omega

lemma find?_prev_of_adjacent_eq {l : List AggRow} (i : ℕ)
    (h1 : i < l.length) (h2 : i + 1 < l.length)
    (heq : (l.get ⟨i, h1⟩).segId = (l.get ⟨i + 1, h2⟩).segId) :
    (l.take (i + 1)).reverse.find?
        (fun s => decide (s.segId = (l.get ⟨i + 1, h2⟩).segId))
      = some (l.get ⟨i, h1⟩) := by
  have htake : l.take (i + 1) = l.take i ++ [l.get ⟨i, h1⟩] := by
    rw [List.take_succ, List.getElem?_eq_getElem h1]
    rfl
  rw [htake, List.reverse_append, List.reverse_singleton, List.singleton_append]
  exact List.find?_cons_of_pos _ (by simpa using heq)

lemma find?_prev_of_adjacent_ne {l : List AggRow} (hs : List.Sorted keyLe l) (i : ℕ)
    (h1 : i < l.length) (h2 : i + 1 < l.length)
    (hne : (l.get ⟨i, h1⟩).segId ≠ (l.get ⟨i + 1, h2⟩).segId) :
    (l.take (i + 1)).reverse.find?
        (fun s => decide (s.segId = (l.get ⟨i + 1, h2⟩).segId))
      = none := by
  apply List.find?_eq_none.mpr
  intro x hx
  simp only [List.mem_reverse] at hx
  obtain ⟨j, hjlt, hxe⟩ := List.mem_take_iff_getElem.mp hx
  have hj : j < l.length := lt_of_lt_of_le hjlt (by omega)
  have hji : j ≤ i := by omega
  intro hpx
  simp only [decide_eq_true_eq] at hpx
  have hxg : x = l.get ⟨j, hj⟩ := by
    rw [← hxe]; simp [List.get_eq_getElem]
  have hmono1 : (l.get ⟨j, hj⟩).segId ≤ (l.get ⟨i, h1⟩).segId :=
    sorted_segId_mono hs j i hj h1 hji
  have hmono2 : (l.get ⟨i, h1⟩).segId ≤ (l.get ⟨i + 1, h2⟩).segId :=
    sorted_segId_mono hs i (i + 1) h1 h2 (by omega)
  rw [hxg] at hpx
  exact hne (by omega)

lemma addLabels_length (l : List FeatRow) : (addLabels l).length = l.length :=
  List.length_map _ _

lemma addLabels_get (l : List FeatRow) (i : ℕ) (h1 : i < (addLabels l).length)
    (h2 : i < l.length) :
    ((addLabels l).get ⟨i, h1⟩).segId = (l.get ⟨i, h2⟩).segId
    ∧ ((addLabels l).get ⟨i, h1⟩).year = (l.get ⟨i, h2⟩).year
    ∧ ((addLabels l).get ⟨i, h1⟩).collisions_total = (l.get ⟨i, h2⟩).collisions_total
    ∧ ((addLabels l).get ⟨i, h1⟩).fatal_major = (l.get ⟨i, h2⟩).fatal_major
    ∧ ((addLabels l).get ⟨i, h1⟩).injuries_total = (l.get ⟨i, h2⟩).injuries_total
    ∧ ((addLabels l).get ⟨i, h1⟩).collisions_prev_year
        = (l.get ⟨i, h2⟩).collisions_prev_year
    ∧ ((addLabels l).get ⟨i, h1⟩).fatal_prev_year = (l.get ⟨i, h2⟩).fatal_prev_year
    ∧ ((addLabels l).get ⟨i, h1⟩).injuries_prev_year
        = (l.get ⟨i, h2⟩).injuries_prev_year := by
  refine ⟨?_, ?_, ?_, ?_, ?_, ?_, ?_, ?_⟩ <;>
    simp [addLabels, List.get_eq_getElem, List.getElem_map]

lemma build_length (joined : List JoinedRow) :
    (build_segment_year joined).length = (sortSegYear (groupAgg joined)).length := by
  unfold build_segment_year
  rw [addLabels_length, addLags_length]

lemma labeledLags_get (l : List AggRow) (i : ℕ)
    (ho : i < (addLabels (addLags l)).length) (hs : i < l.length) :
    ((addLabels (addLags l)).get ⟨i, ho⟩).segId = (l.get ⟨i, hs⟩).segId
    ∧ ((addLabels (addLags l)).get ⟨i, ho⟩).year = (l.get ⟨i, hs⟩).year
    ∧ ((addLabels (addLags l)).get ⟨i, ho⟩).collisions_total
        = (l.get ⟨i, hs⟩).collisions_total
    ∧ ((addLabels (addLags l)).get ⟨i, ho⟩).fatal_major = (l.get ⟨i, hs⟩).fatal_major
    ∧ ((addLabels (addLags l)).get ⟨i, ho⟩).injuries_total
        = (l.get ⟨i, hs⟩).injuries_total
    ∧ ((addLabels (addLags l)).get ⟨i, ho⟩).collisions_prev_year
        = (((l.take i).reverse.find?
            (fun s => decide (s.segId = (l.get ⟨i, hs⟩).segId))).map
              (·.collisions_total)).getD 0
    ∧ ((addLabels (addLags l)).get ⟨i, ho⟩).fatal_prev_year
        = (((l.take i).reverse.find?
            (fun s => decide (s.segId = (l.get ⟨i, hs⟩).segId))).map
              (·.fatal_major)).getD 0
    ∧ ((addLabels (addLags l)).get ⟨i, ho⟩).injuries_prev_year
        = (((l.take i).reverse.find?
            (fun s => decide (s.segId = (l.get ⟨i, hs⟩).segId))).map
              (·.injuries_total)).getD 0 := by
  have hw : i < (addLags l).length := by rw [addLags_length]; exact hs
  have hab := addLabels_get (addLags l) i ho hw
  have hag := addLags_get l i hw hs
  refine ⟨?_, ?_, ?_, ?_, ?_, ?_, ?_, ?_⟩
  · rw [hab.1, hag]; rfl
  · rw [hab.2.1, hag]; rfl
  · rw [hab.2.2.1, hag]; rfl
  · rw [hab.2.2.2.1, hag]; rfl
  · rw [hab.2.2.2.2.1, hag]; rfl
  · rw [hab.2.2.2.2.2.1, hag]; rfl
  · rw [hab.2.2.2.2.2.2.1, hag]; rfl
  · rw [hab.2.2.2.2.2.2.2, hag]; rfl

/-! ## Claim theorems: feature aggregator -/

/-- C1: in the feature table, a record's high-risk label is 1 exactly when its
current-year collision total is at or above the 0.8 quantile of the collision
totals of its own year cohort, and 0 otherwise; the threshold of a year is a
function of that year's records only. -/
theorem build_high_risk_iff (joined : List JoinedRow) :
    (∀ r ∈ build_segment_year joined,
        (r.high_risk = 1 ↔
          quantile08 (cohortTotals (build_segment_year joined) r.year)
            ≤ (r.collisions_total : ℚ))
        ∧ (r.high_risk = 0 ↔
          ¬ quantile08 (cohortTotals (build_segment_year joined) r.year)
            ≤ (r.collisions_total : ℚ)))
    ∧ (∀ l1 l2 : List FeatRow, ∀ y : Int,
        (l1.filter fun x => x.year = y) = (l2.filter fun x => x.year = y) →
        quantile08 (cohortTotals l1 y) = quantile08 (cohortTotals l2 y)) := by
  constructor
  · intro r hr
    unfold build_segment_year at hr ⊢
    unfold addLabels at hr
    obtain ⟨w, hw, rfl⟩ := List.mem_map.mp hr
    rw [cohortTotals_addLabels]
    by_cases hc : quantile08
        (cohortTotals (addLags (sortSegYear (groupAgg joined))) w.year)
        ≤ (w.collisions_total : ℚ)
    · simp [addLabels, hc]
    · simp [addLabels, hc]
  · intro l1 l2 y h
    unfold cohortTotals
    rw [h]

/-- C2: the feature table is sorted by (segment id, year) ascending; a record
whose predecessor row belongs to the same segment carries that row's
current-period collision/fatality/injury totals as its lag fields (a shift by
one position), and the first record of each segment — a row whose predecessor
belongs to a different segment, or the very first row — has all three lag
fields equal to zero. -/
theorem build_lag_shift (joined : List JoinedRow) :
    (∀ i (h1 : i < (build_segment_year joined).length)
        (h2 : i + 1 < (build_segment_year joined).length),
      (((build_segment_year joined).get ⟨i, h1⟩).segId
          = ((build_segment_year joined).get ⟨i + 1, h2⟩).segId →
        ((build_segment_year joined).get ⟨i + 1, h2⟩).collisions_prev_year
            = ((build_segment_year joined).get ⟨i, h1⟩).collisions_total
        ∧ ((build_segment_year joined).get ⟨i + 1, h2⟩).fatal_prev_year
            = ((build_segment_year joined).get ⟨i, h1⟩).fatal_major
        ∧ ((build_segment_year joined).get ⟨i + 1, h2⟩).injuries_prev_year
            = ((build_segment_year joined).get ⟨i, h1⟩).injuries_total)
      ∧ (((build_segment_year joined).get ⟨i, h1⟩).segId
          ≠ ((build_segment_year joined).get ⟨i + 1, h2⟩).segId →
        ((build_segment_year joined).get ⟨i + 1, h2⟩).collisions_prev_year = 0
        ∧ ((build_segment_year joined).get ⟨i + 1, h2⟩).fatal_prev_year = 0
        ∧ ((build_segment_year joined).get ⟨i + 1, h2⟩).injuries_prev_year = 0))
    ∧ (∀ h0 : 0 < (build_segment_year joined).length,
        ((build_segment_year joined).get ⟨0, h0⟩).collisions_prev_year = 0
        ∧ ((build_segment_year joined).get ⟨0, h0⟩).fatal_prev_year = 0
        ∧ ((build_segment_year joined).get ⟨0, h0⟩).injuries_prev_year = 0)
    ∧ List.Sorted (fun a b : FeatRow =>
        a.segId < b.segId ∨ (a.segId = b.segId ∧ a.year ≤ b.year))
        (build_segment_year joined) := by
  have hsorted := sortSegYear_sorted (groupAgg joined)
  unfold build_segment_year
  refine ⟨?_, ?_, ?_⟩
  · intro i h1 h2
    have hs1 : i < (sortSegYear (groupAgg joined)).length := by
      rw [addLabels_length, addLags_length] at h1; exact h1
    have hs2 : i + 1 < (sortSegYear (groupAgg joined)).length := by
      rw [addLabels_length, addLags_length] at h2; exact h2
    have k1 := labeledLags_get (sortSegYear (groupAgg joined)) i h1 hs1
    have k2 := labeledLags_get (sortSegYear (groupAgg joined)) (i + 1) h2 hs2
    constructor
    · intro hseg
      have hseq : ((sortSegYear (groupAgg joined)).get ⟨i, hs1⟩).segId
          = ((sortSegYear (groupAgg joined)).get ⟨i + 1, hs2⟩).segId := by
        rw [← k1.1, ← k2.1]; exact hseg
      have hfind := find?_prev_of_adjacent_eq i hs1 hs2 hseq
      refine ⟨?_, ?_, ?_⟩
      · rw [k2.2.2.2.2.2.1, hfind, k1.2.2.1]; rfl
      · rw [k2.2.2.2.2.2.2.1, hfind, k1.2.2.2.1]; rfl
      · rw [k2.2.2.2.2.2.2.2, hfind, k1.2.2.2.2.1]; rfl
    · intro hseg
      have hsne : ((sortSegYear (groupAgg joined)).get ⟨i, hs1⟩).segId
          ≠ ((sortSegYear (groupAgg joined)).get ⟨i + 1, hs2⟩).segId := by
        rw [← k1.1, ← k2.1]; exact hseg
      have hfind := find?_prev_of_adjacent_ne hsorted i hs1 hs2 hsne
      refine ⟨?_, ?_, ?_⟩
      · rw [k2.2.2.2.2.2.1, hfind]; rfl
      · rw [k2.2.2.2.2.2.2.1, hfind]; rfl
      · rw [k2.2.2.2.2.2.2.2, hfind]; rfl
  · intro h0
    have hs0 : 0 < (sortSegYear (groupAgg joined)).length := by
      rw [addLabels_length, addLags_length] at h0; exact h0
    have k := labeledLags_get (sortSegYear (groupAgg joined)) 0 h0 hs0
    exact ⟨by rw [k.2.2.2.2.2.1]; rfl, by rw [k.2.2.2.2.2.2.1]; rfl,
      by rw [k.2.2.2.2.2.2.2]; rfl⟩
  · apply List.pairwise_iff_getElem.mpr
    intro a b ha hb hab
    dsimp only
    have hsa : a < (sortSegYear (groupAgg joined)).length := by
      rw [addLabels_length, addLags_length] at ha; exact ha
    have hsb : b < (sortSegYear (groupAgg joined)).length := by
      rw [addLabels_length, addLags_length] at hb; exact hb
    have ka := labeledLags_get (sortSegYear (groupAgg joined)) a ha hsa
    have kb := labeledLags_get (sortSegYear (groupAgg joined)) b hb hsb
    have hp := List.pairwise_iff_getElem.mp hsorted a b hsa hsb hab
    unfold keyLe at hp
    have e1 : (addLabels (addLags (sortSegYear (groupAgg joined))))[a].segId
        = (sortSegYear (groupAgg joined))[a].segId := ka.1
    have e2 : (addLabels (addLags (sortSegYear (groupAgg joined))))[a].year
        = (sortSegYear (groupAgg joined))[a].year := ka.2.1
    have e3 : (addLabels (addLags (sortSegYear (groupAgg joined))))[b].segId
        = (sortSegYear (groupAgg joined))[b].segId := kb.1
    have e4 : (addLabels (addLags (sortSegYear (groupAgg joined))))[b].year
        = (sortSegYear (groupAgg joined))[b].year := kb.2.1
    rw [e1, e2, e3, e4]
    exact hp

/-! ## Helper lemmas: the 0.8 quantile -/

lemma sorted_getElem_mono {s : List ℕ} (hs : List.Sorted (· ≤ ·) s) {i j : ℕ}
    (hi : i < s.length) (hj : j < s.length) (hij : i ≤ j) : s[i] ≤ s[j] := by
  rcases eq_or_lt_of_le hij with rfl | hlt
  · exact le_refl _
  · exact List.pairwise_iff_getElem.mp hs i j hi hj hlt

lemma quantile08_frac_bounds (n : ℕ) :
    (0 : ℚ) ≤ (4 * (n - 1) : ℕ) / 5 - ((4 * (n - 1) / 5 : ℕ) : ℚ)
    ∧ (4 * (n - 1) : ℕ) / 5 - ((4 * (n - 1) / 5 : ℕ) : ℚ) ≤ 1 := by
  constructor
  · have h := Nat.cast_div_le (α := ℚ) (m := 4 * (n - 1)) (n := 5)
    push_cast at h ⊢
    linarith
  · have h : 4 * (n - 1) < 5 * (4 * (n - 1) / 5) + 5 := by omega
    have h2 : ((4 * (n - 1) : ℕ) : ℚ) < 5 * ((4 * (n - 1) / 5 : ℕ) : ℚ) + 5 := by
      exact_mod_cast h
    push_cast at h2 ⊢
    linarith

lemma quantile08_between (vals : List ℕ) (hne : vals ≠ []) :
    (((List.insertionSort (· ≤ ·) vals).getD (4 * (vals.length - 1) / 5) 0 : ℕ) : ℚ)
        ≤ quantile08 vals
    ∧ quantile08 vals
        ≤ (((List.insertionSort (· ≤ ·) vals).getD
            ((4 * (vals.length - 1) + 4) / 5) 0 : ℕ) : ℚ) := by
  have hlen : (List.insertionSort (· ≤ ·) vals).length = vals.length :=
    (List.perm_insertionSort _ vals).length_eq
  have hsorted : (List.insertionSort (· ≤ ·) vals).Sorted (· ≤ ·) :=
    List.sorted_insertionSort _ vals
  have hn : 1 ≤ vals.length := List.length_pos.mpr hne
  have hlohi : 4 * (vals.length - 1) / 5 ≤ (4 * (vals.length - 1) + 4) / 5 := by omega
  have hhin : (4 * (vals.length - 1) + 4) / 5 < vals.length := by omega
  have hlon : 4 * (vals.length - 1) / 5 < vals.length := by omega
  have hlo := List.getD_eq_getElem (List.insertionSort (· ≤ ·) vals) 0
    (n := 4 * (vals.length - 1) / 5) (by omega)
  have hhi := List.getD_eq_getElem (List.insertionSort (· ≤ ·) vals) 0
    (n := (4 * (vals.length - 1) + 4) / 5) (by omega)
  have hmono : (List.insertionSort (· ≤ ·) vals).getD (4 * (vals.length - 1) / 5) 0
      ≤ (List.insertionSort (· ≤ ·) vals).getD ((4 * (vals.length - 1) + 4) / 5) 0 := by
    rw [hlo, hhi]
    exact sorted_getElem_mono hsorted (by omega) (by omega) hlohi
  have hfrac := quantile08_frac_bounds vals.length
  unfold quantile08
  have hmq : ((((List.insertionSort (· ≤ ·) vals).getD (4 * (vals.length - 1) / 5) 0) : ℕ) : ℚ)
      ≤ (((List.insertionSort (· ≤ ·) vals).getD ((4 * (vals.length - 1) + 4) / 5) 0 : ℕ) : ℚ) :=
    Nat.cast_le.mpr hmono
  constructor
  · nlinarith [hfrac.1, hfrac.2, hmq]
  · nlinarith [hfrac.1, hfrac.2, hmq]

lemma countP_ge_quantile_lower (vals : List ℕ) (hne : vals ≠ []) :
    vals.length - (4 * (vals.length - 1) + 4) / 5
      ≤ vals.countP fun (v : ℕ) => decide (quantile08 vals ≤ (v : ℚ)) := by
  have hperm : (List.insertionSort (· ≤ ·) vals).Perm vals :=
    List.perm_insertionSort _ vals
  have hlen : (List.insertionSort (· ≤ ·) vals).length = vals.length := hperm.length_eq
  have hsorted : (List.insertionSort (· ≤ ·) vals).Sorted (· ≤ ·) :=
    List.sorted_insertionSort _ vals
  have hn : 1 ≤ vals.length := List.length_pos.mpr hne
  have hhin : (4 * (vals.length - 1) + 4) / 5 < vals.length := by omega
  have hq : quantile08 vals
      ≤ (((List.insertionSort (· ≤ ·) vals).getD ((4 * (vals.length - 1) + 4) / 5) 0 : ℕ) : ℚ) :=
    (quantile08_between vals hne).2
  rw [← hperm.countP_eq]
  have hsplit : (List.insertionSort (· ≤ ·) vals).countP
        (fun (v : ℕ) => decide (quantile08 vals ≤ (v : ℚ)))
      = ((List.insertionSort (· ≤ ·) vals).take ((4 * (vals.length - 1) + 4) / 5)).countP
          (fun (v : ℕ) => decide (quantile08 vals ≤ (v : ℚ)))
        + ((List.insertionSort (· ≤ ·) vals).drop ((4 * (vals.length - 1) + 4) / 5)).countP
            (fun (v : ℕ) => decide (quantile08 vals ≤ (v : ℚ))) := by
    conv_lhs => rw [← List.take_append_drop ((4 * (vals.length - 1) + 4) / 5)
      (List.insertionSort (· ≤ ·) vals)]
    rw [List.countP_append]
  have hall : ∀ x ∈ (List.insertionSort (· ≤ ·) vals).drop ((4 * (vals.length - 1) + 4) / 5),
      decide (quantile08 vals ≤ (x : ℚ)) = true := by
    intro x hx
    obtain ⟨k, hk, hxe⟩ := List.mem_iff_getElem.mp hx
    rw [List.getElem_drop] at hxe
    have hbound : (4 * (vals.length - 1) + 4) / 5 + k
        < (List.insertionSort (· ≤ ·) vals).length := by
      rw [List.length_drop] at hk
      omega
    have hhis : (4 * (vals.length - 1) + 4) / 5 < (List.insertionSort (· ≤ ·) vals).length := by
      omega
    have hmono : (List.insertionSort (· ≤ ·) vals)[(4 * (vals.length - 1) + 4) / 5]
        ≤ (List.insertionSort (· ≤ ·) vals)[(4 * (vals.length - 1) + 4) / 5 + k] :=
      sorted_getElem_mono hsorted hhis hbound (by omega)
    simp only [decide_eq_true_eq]
    calc quantile08 vals
        ≤ (((List.insertionSort (· ≤ ·) vals).getD ((4 * (vals.length - 1) + 4) / 5) 0 : ℕ) : ℚ) :=
          hq
      _ = (((List.insertionSort (· ≤ ·) vals)[(4 * (vals.length - 1) + 4) / 5] : ℕ) : ℚ) := by
          rw [List.getD_eq_getElem _ 0 hhis]
      _ ≤ (((List.insertionSort (· ≤ ·) vals)[(4 * (vals.length - 1) + 4) / 5 + k] : ℕ) : ℚ) :=
          Nat.cast_le.mpr hmono
      _ = (x : ℚ) := by exact_mod_cast congrArg (Nat.cast : ℕ → ℚ) hxe
  have hdall : ((List.insertionSort (· ≤ ·) vals).drop ((4 * (vals.length - 1) + 4) / 5)).countP
        (fun (v : ℕ) => decide (quantile08 vals ≤ (v : ℚ)))
      = ((List.insertionSort (· ≤ ·) vals).drop ((4 * (vals.length - 1) + 4) / 5)).length :=
    List.countP_eq_length.mpr hall
  have hdlen : ((List.insertionSort (· ≤ ·) vals).drop ((4 * (vals.length - 1) + 4) / 5)).length
      = vals.length - (4 * (vals.length - 1) + 4) / 5 := by
    rw [List.length_drop, hlen]
  omega

lemma countP_le_split (q : ℚ) (l : List ℕ) :
    l.countP (fun (v : ℕ) => decide (q ≤ (v : ℚ)))
      = l.countP (fun (v : ℕ) => decide (q < (v : ℚ)))
        + l.countP (fun (v : ℕ) => decide ((v : ℚ) = q)) := by
  induction l with
  | nil => rfl
  | cons x xs ih =>
      simp only [List.countP_cons, ih]
      by_cases h1 : q < (x : ℚ)
      · have h2 : ¬ ((x : ℚ) = q) := fun e => absurd h1 (by rw [e]; exact lt_irrefl q)
        have h3 : q ≤ (x : ℚ) := le_of_lt h1
        simp [h1, h2, h3]
        omega
      · by_cases h2 : (x : ℚ) = q
        · have h3 : q ≤ (x : ℚ) := le_of_eq h2.symm
          simp [h1, h2, h3]
          omega
        · have h3 : ¬ q ≤ (x : ℚ) := fun hle =>
            (lt_or_eq_of_le hle).elim h1 fun e => h2 e.symm
          simp [h1, h2, h3]

lemma countP_le_quantile_upper (vals : List ℕ) (hne : vals ≠ []) :
    vals.countP (fun (v : ℕ) => decide (quantile08 vals ≤ (v : ℚ)))
      ≤ (vals.length - 1 - 4 * (vals.length - 1) / 5)
        + vals.countP (fun (v : ℕ) => decide ((v : ℚ) = quantile08 vals)) := by
  have hperm : (List.insertionSort (· ≤ ·) vals).Perm vals :=
    List.perm_insertionSort _ vals
  have hlen : (List.insertionSort (· ≤ ·) vals).length = vals.length := hperm.length_eq
  have hsorted : (List.insertionSort (· ≤ ·) vals).Sorted (· ≤ ·) :=
    List.sorted_insertionSort _ vals
  have hn : 1 ≤ vals.length := List.length_pos.mpr hne
  have hlon : 4 * (vals.length - 1) / 5 < vals.length := by omega
  have hlos : 4 * (vals.length - 1) / 5 < (List.insertionSort (· ≤ ·) vals).length := by omega
  have hqlo : (((List.insertionSort (· ≤ ·) vals).getD (4 * (vals.length - 1) / 5) 0 : ℕ) : ℚ)
      ≤ quantile08 vals := (quantile08_between vals hne).1
  have hzero : ((List.insertionSort (· ≤ ·) vals).take (4 * (vals.length - 1) / 5 + 1)).countP
      (fun (v : ℕ) => decide (quantile08 vals < (v : ℚ))) = 0 := by
    apply List.countP_eq_zero.mpr
    intro x hx
    obtain ⟨j, hj, hxe⟩ := List.mem_take_iff_getElem.mp hx
    have hjs : j < (List.insertionSort (· ≤ ·) vals).length := by omega
    have hmono : (List.insertionSort (· ≤ ·) vals)[j]
        ≤ (List.insertionSort (· ≤ ·) vals)[4 * (vals.length - 1) / 5] :=
      sorted_getElem_mono hsorted hjs hlos (by omega)
    simp only [decide_eq_true_eq, not_lt]
    calc (x : ℚ) = ((List.insertionSort (· ≤ ·) vals)[j] : ℚ) := by
          exact_mod_cast (congrArg (Nat.cast : ℕ → ℚ) hxe).symm
      _ ≤ (((List.insertionSort (· ≤ ·) vals)[4 * (vals.length - 1) / 5] : ℕ) : ℚ) :=
          Nat.cast_le.mpr hmono
      _ = (((List.insertionSort (· ≤ ·) vals).getD (4 * (vals.length - 1) / 5) 0 : ℕ) : ℚ) := by
          rw [List.getD_eq_getElem _ 0 hlos]
      _ ≤ quantile08 vals := hqlo
  have hltcount : (List.insertionSort (· ≤ ·) vals).countP
      (fun (v : ℕ) => decide (quantile08 vals < (v : ℚ)))
      ≤ vals.length - 1 - 4 * (vals.length - 1) / 5 := by
    have hsplit : (List.insertionSort (· ≤ ·) vals).countP
          (fun (v : ℕ) => decide (quantile08 vals < (v : ℚ)))
        = ((List.insertionSort (· ≤ ·) vals).take (4 * (vals.length - 1) / 5 + 1)).countP
            (fun (v : ℕ) => decide (quantile08 vals < (v : ℚ)))
          + ((List.insertionSort (· ≤ ·) vals).drop (4 * (vals.length - 1) / 5 + 1)).countP
              (fun (v : ℕ) => decide (quantile08 vals < (v : ℚ))) := by
      conv_lhs => rw [← List.take_append_drop (4 * (vals.length - 1) / 5 + 1)
        (List.insertionSort (· ≤ ·) vals)]
      rw [List.countP_append]
    have hdrople := List.countP_le_length
      (p := fun (v : ℕ) => decide (quantile08 vals < (v : ℚ)))
      (l := (List.insertionSort (· ≤ ·) vals).drop (4 * (vals.length - 1) / 5 + 1))
    have hdlen : ((List.insertionSort (· ≤ ·) vals).drop (4 * (vals.length - 1) / 5 + 1)).length
        = vals.length - (4 * (vals.length - 1) / 5 + 1) := by
      rw [List.length_drop, hlen]
    omega
  have hsplitv := countP_le_split (quantile08 vals) vals
  have hltv : vals.countP (fun (v : ℕ) => decide (quantile08 vals < (v : ℚ)))
      = (List.insertionSort (· ≤ ·) vals).countP
          (fun (v : ℕ) => decide (quantile08 vals < (v : ℚ))) :=
    (hperm.countP_eq _).symm
  omega

lemma quantile08_le_some_max (vals : List ℕ) (hne : vals ≠ []) :
    ∃ m ∈ vals, (∀ v ∈ vals, v ≤ m) ∧ quantile08 vals ≤ (m : ℚ) := by
  have hperm : (List.insertionSort (· ≤ ·) vals).Perm vals :=
    List.perm_insertionSort _ vals
  have hlen : (List.insertionSort (· ≤ ·) vals).length = vals.length := hperm.length_eq
  have hsorted : (List.insertionSort (· ≤ ·) vals).Sorted (· ≤ ·) :=
    List.sorted_insertionSort _ vals
  have hn : 1 ≤ vals.length := List.length_pos.mpr hne
  have hlast : vals.length - 1 < (List.insertionSort (· ≤ ·) vals).length := by omega
  have hhis : (4 * (vals.length - 1) + 4) / 5 < (List.insertionSort (· ≤ ·) vals).length := by
    omega
  refine ⟨(List.insertionSort (· ≤ ·) vals)[vals.length - 1],
    hperm.mem_iff.mp (List.getElem_mem hlast), ?_, ?_⟩
  · intro v hv
    obtain ⟨j, hj, hje⟩ := List.mem_iff_getElem.mp (hperm.mem_iff.mpr hv)
    rw [← hje]
    exact sorted_getElem_mono hsorted hj hlast (by omega)
  · calc quantile08 vals
        ≤ (((List.insertionSort (· ≤ ·) vals).getD ((4 * (vals.length - 1) + 4) / 5) 0 : ℕ) : ℚ) :=
          (quantile08_between vals hne).2
      _ = (((List.insertionSort (· ≤ ·) vals)[(4 * (vals.length - 1) + 4) / 5] : ℕ) : ℚ) := by
          rw [List.getD_eq_getElem _ 0 hhis]
      _ ≤ (((List.insertionSort (· ≤ ·) vals)[vals.length - 1] : ℕ) : ℚ) :=
          Nat.cast_le.mpr (sorted_getElem_mono hsorted hhis hlast (by omega))

lemma countHigh_eq (joined : List JoinedRow) (y : Int) :
    ((build_segment_year joined).filter fun r => decide (r.year = y)).countP
        (fun r => decide (r.high_risk = 1))
      = (cohortTotals (build_segment_year joined) y).countP
          (fun (v : ℕ) => decide (quantile08 (cohortTotals (build_segment_year joined) y)
            ≤ (v : ℚ))) := by
  unfold build_segment_year
  rw [cohortTotals_addLabels]
  unfold addLabels
  rw [List.filter_map, List.countP_map]
  unfold cohortTotals
  rw [List.countP_map]
  show ((addLags (sortSegYear (groupAgg joined))).filter
      fun r => decide (r.year = y)).countP _ = _
  apply List.countP_congr
  intro r hr
  have hy : r.year = y := by
    have := (List.mem_filter.mp hr).2
    simpa using this
  by_cases hc : quantile08 (cohortTotals (addLags (sortSegYear (groupAgg joined))) y)
      ≤ (r.collisions_total : ℚ)
  · simp [Function.comp, hy, hc]
  · simp [Function.comp, hy, hc]

/-- C7: in every non-empty year cohort of the feature table, the number of
records labelled high-risk is at least `n - ⌈0.8 (n-1)⌉` (approximately 20% of
the cohort), and exceeds `(n-1) - ⌊0.8 (n-1)⌋` only by records whose collision
total ties exactly with the quantile threshold. -/
theorem build_high_risk_share (joined : List JoinedRow) (y : Int)
    (hne : cohortTotals (build_segment_year joined) y ≠ []) :
    (cohortTotals (build_segment_year joined) y).length
        - (4 * ((cohortTotals (build_segment_year joined) y).length - 1) + 4) / 5
      ≤ ((build_segment_year joined).filter fun r => decide (r.year = y)).countP
          (fun r => decide (r.high_risk = 1))
    ∧ ((build_segment_year joined).filter fun r => decide (r.year = y)).countP
          (fun r => decide (r.high_risk = 1))
      ≤ ((cohortTotals (build_segment_year joined) y).length - 1
          - 4 * ((cohortTotals (build_segment_year joined) y).length - 1) / 5)
        + (cohortTotals (build_segment_year joined) y).countP
            (fun (v : ℕ) => decide ((v : ℚ)
              = quantile08 (cohortTotals (build_segment_year joined) y))) := by
  rw [countHigh_eq joined y]
  exact ⟨countP_ge_quantile_lower _ hne, countP_le_quantile_upper _ hne⟩

lemma keyOf_eq_some {j : JoinedRow} {s : ℕ} {y : Int}
    (h : keyOf j = some (s, y)) : j.segId = some s ∧ j.year = some y := by
  unfold keyOf at h
  cases hs : j.segId <;> cases hy : j.year <;> rw [hs, hy] at h <;> simp_all

lemma groupAgg_mem {joined : List JoinedRow} {a : AggRow} (ha : a ∈ groupAgg joined) :
    a.collisions_total
        = joined.countP (fun j => decide (keyOf j = some (a.segId, a.year)))
    ∧ ∃ j ∈ joined, keyOf j = some (a.segId, a.year) := by
  unfold groupAgg at ha
  obtain ⟨k, hk, rfl⟩ := List.mem_map.mp ha
  constructor
  · rw [List.countP_eq_length_filter]
  · obtain ⟨j, hj, hkeq⟩ := List.mem_filterMap.mp (List.mem_dedup.mp hk)
    exact ⟨j, hj, by rw [hkeq]⟩

lemma build_mem_agg {joined : List JoinedRow} {r : FeatRow}
    (hr : r ∈ build_segment_year joined) :
    ∃ a ∈ groupAgg joined, r.segId = a.segId ∧ r.year = a.year
      ∧ r.collisions_total = a.collisions_total := by
  unfold build_segment_year addLabels at hr
  obtain ⟨w, hw, rfl⟩ := List.mem_map.mp hr
  obtain ⟨i, hi, hwe⟩ := List.mem_iff_getElem.mp hw
  have hs : i < (sortSegYear (groupAgg joined)).length := by
    rw [addLags_length] at hi; exact hi
  have hge : (addLags (sortSegYear (groupAgg joined)))[i]
      = mkLagged ((sortSegYear (groupAgg joined)).get ⟨i, hs⟩)
          (((sortSegYear (groupAgg joined)).take i).reverse.find?
            fun s => decide (s.segId = ((sortSegYear (groupAgg joined)).get ⟨i, hs⟩).segId)) :=
    addLags_get (sortSegYear (groupAgg joined)) i hi hs
  have hsrtmem : (sortSegYear (groupAgg joined)).get ⟨i, hs⟩ ∈ groupAgg joined :=
    (sortSegYear_perm (groupAgg joined)).mem_iff.mp
      (List.get_mem (sortSegYear (groupAgg joined)) i hs)
  refine ⟨_, hsrtmem, ?_, ?_, ?_⟩
  · show w.segId = ((sortSegYear (groupAgg joined)).get ⟨i, hs⟩).segId
    rw [← hwe, hge]
    rfl
  · show w.year = ((sortSegYear (groupAgg joined)).get ⟨i, hs⟩).year
    rw [← hwe, hge]
    rfl
  · show w.collisions_total = ((sortSegYear (groupAgg joined)).get ⟨i, hs⟩).collisions_total
    rw [← hwe, hge]
    rfl

/-- C9: every record of the feature table counts at least one collision event:
its collision total is exactly the number of joined events carrying its
(segment, year) key, and a record exists only because at least one associated
event with a parsed year fell into its group — events with a missing segment
association or a missing year are dropped by the group-by and contribute to no
record. -/
theorem build_totals_from_events (joined : List JoinedRow) :
    ∀ r ∈ build_segment_year joined,
      1 ≤ r.collisions_total
      ∧ r.collisions_total
          = joined.countP (fun j => decide (keyOf j = some (r.segId, r.year)))
      ∧ ∃ j ∈ joined, j.segId = some r.segId ∧ j.year = some r.year := by
  intro r hr
  obtain ⟨a, ha, hseg, hyear, hct⟩ := build_mem_agg hr
  obtain ⟨hcount, j, hj, hkey⟩ := groupAgg_mem ha
  have hkey2 : keyOf j = some (r.segId, r.year) := by rw [hseg, hyear]; exact hkey
  have hcteq : r.collisions_total
      = joined.countP (fun j => decide (keyOf j = some (r.segId, r.year))) := by
    rw [hct, hcount, ← hseg, ← hyear]
  have hpos : 0 < joined.countP (fun j => decide (keyOf j = some (r.segId, r.year))) :=
    List.countP_pos.mpr ⟨j, hj, by simp [hkey2]⟩
  exact ⟨by omega, hcteq, j, hj, (keyOf_eq_some hkey2).1, (keyOf_eq_some hkey2).2⟩

/-- C10: every non-empty year cohort of the feature table contains a record
labelled high-risk, because the cohort's maximum collision total is at or above
the cohort's 0.8-quantile threshold. -/
theorem build_cohort_has_high_risk (joined : List JoinedRow) (y : Int)
    (hne : ∃ r ∈ build_segment_year joined, r.year = y) :
    (∃ r ∈ build_segment_year joined, r.year = y ∧ r.high_risk = 1)
    ∧ ∃ m ∈ cohortTotals (build_segment_year joined) y,
        (∀ v ∈ cohortTotals (build_segment_year joined) y, v ≤ m)
        ∧ quantile08 (cohortTotals (build_segment_year joined) y) ≤ (m : ℚ) := by
  obtain ⟨r0, hr0, hy0⟩ := hne
  have hmemf : r0 ∈ (build_segment_year joined).filter (fun r => decide (r.year = y)) :=
    List.mem_filter.mpr ⟨hr0, by simp [hy0]⟩
  have hcne : cohortTotals (build_segment_year joined) y ≠ [] := by
    unfold cohortTotals
    exact List.ne_nil_of_mem (List.mem_map_of_mem _ hmemf)
  constructor
  · have hlow := countP_ge_quantile_lower (cohortTotals (build_segment_year joined) y) hcne
    have hch := countHigh_eq joined y
    have hn : 1 ≤ (cohortTotals (build_segment_year joined) y).length :=
      List.length_pos.mpr hcne
    have hpos : 0 < ((build_segment_year joined).filter fun r => decide (r.year = y)).countP
        (fun r => decide (r.high_risk = 1)) := by
      rw [hch]
      omega
    obtain ⟨r, hrf, hrp⟩ := List.countP_pos.mp hpos
    obtain ⟨hrmem, hry⟩ := List.mem_filter.mp hrf
    exact ⟨r, hrmem, by simpa using hry, by simpa using hrp⟩
  · exact quantile08_le_some_max _ hcne

/-- Witness for C1: one segment with one event in 2020; its total 1 meets the
one-element cohort's threshold 1, so the record is labelled 1. -/
theorem build_high_risk_iff_witness :
    (⟨1, 2020, 1, 2, 3, 0, 0, 0, 1⟩ : FeatRow)
        ∈ build_segment_year [⟨some 1, some 2020, 2, 3⟩]
    ∧ ((⟨1, 2020, 1, 2, 3, 0, 0, 0, 1⟩ : FeatRow).high_risk = 1 ↔
        quantile08 (cohortTotals (build_segment_year [⟨some 1, some 2020, 2, 3⟩])
            (⟨1, 2020, 1, 2, 3, 0, 0, 0, 1⟩ : FeatRow).year)
          ≤ ((⟨1, 2020, 1, 2, 3, 0, 0, 0, 1⟩ : FeatRow).collisions_total : ℚ)) := by
  have hm : (⟨1, 2020, 1, 2, 3, 0, 0, 0, 1⟩ : FeatRow)
      ∈ build_segment_year [⟨some 1, some 2020, 2, 3⟩] := by
    norm_num [build_segment_year, groupAgg, keyOf, sortSegYear, List.insertionSort,
      List.orderedInsert, addLags, addLagsAux, mkLagged, addLabels, cohortTotals, quantile08]
  exact ⟨hm, ((build_high_risk_iff [⟨some 1, some 2020, 2, 3⟩]).1 _ hm).1⟩

set_option maxHeartbeats 4000000 in
/-- Witness for C2: segment 7 with 5 events in year 1 and 8 in year 2 yields a
year-2 record with `collisions_prev_year = 5`, and the first record's lag is 0. -/
theorem build_lag_shift_witness :
    1 < (build_segment_year lagScenario).length
    ∧ ((build_segment_year lagScenario).get ⟨1, by
          norm_num [build_segment_year, groupAgg, keyOf, sortSegYear, List.insertionSort,
            List.orderedInsert, addLags, addLagsAux, mkLagged, addLabels, cohortTotals,
            quantile08, lagScenario, List.replicate]⟩).collisions_prev_year = 5
    ∧ ((build_segment_year lagScenario).get ⟨0, by
          norm_num [build_segment_year, groupAgg, keyOf, sortSegYear, List.insertionSort,
            List.orderedInsert, addLags, addLagsAux, mkLagged, addLabels, cohortTotals,
            quantile08, lagScenario, List.replicate]⟩).collisions_prev_year = 0 := by
  have hlen : (build_segment_year lagScenario).length = 2 := by
    norm_num [build_segment_year, groupAgg, keyOf, sortSegYear, List.insertionSort,
      List.orderedInsert, addLags, addLagsAux, mkLagged, addLabels, cohortTotals,
      quantile08, lagScenario, List.replicate]
  have h1 : 0 < (build_segment_year lagScenario).length := by omega
  have h2 : 1 < (build_segment_year lagScenario).length := by omega
  have hseg : ((build_segment_year lagScenario).get ⟨0, h1⟩).segId
      = ((build_segment_year lagScenario).get ⟨1, h2⟩).segId := by
    norm_num [build_segment_year, groupAgg, keyOf, sortSegYear, List.insertionSort,
      List.orderedInsert, addLags, addLagsAux, mkLagged, addLabels, cohortTotals,
      quantile08, lagScenario, List.replicate]
  have hct : ((build_segment_year lagScenario).get ⟨0, h1⟩).collisions_total = 5 := by
    norm_num [build_segment_year, groupAgg, keyOf, sortSegYear, List.insertionSort,
      List.orderedInsert, addLags, addLagsAux, mkLagged, addLabels, cohortTotals,
      quantile08, lagScenario, List.replicate]
  have hshift := ((build_lag_shift lagScenario).1 0 h1 h2).1 hseg
  have hzero := (build_lag_shift lagScenario).2.1 h1
  exact ⟨h2, hshift.1.trans hct, hzero.1⟩

/-- Witness for C7: five segments with 1–5 events each in year 2020; the bounds
at `n = 5` give `1 ≤ count` and `count ≤ 1 + ties`. -/
theorem build_high_risk_share_witness :
    cohortTotals (build_segment_year ([⟨some 1, some 2020, 0, 0⟩]
        ++ List.replicate 2 (⟨some 2, some 2020, 0, 0⟩ : JoinedRow)
        ++ List.replicate 3 ⟨some 3, some 2020, 0, 0⟩
        ++ List.replicate 4 ⟨some 4, some 2020, 0, 0⟩
        ++ List.replicate 5 ⟨some 5, some 2020, 0, 0⟩)) 2020 ≠ []
    ∧ (cohortTotals (build_segment_year ([⟨some 1, some 2020, 0, 0⟩]
        ++ List.replicate 2 (⟨some 2, some 2020, 0, 0⟩ : JoinedRow)
        ++ List.replicate 3 ⟨some 3, some 2020, 0, 0⟩
        ++ List.replicate 4 ⟨some 4, some 2020, 0, 0⟩
        ++ List.replicate 5 ⟨some 5, some 2020, 0, 0⟩)) 2020).length
        - (4 * ((cohortTotals (build_segment_year ([⟨some 1, some 2020, 0, 0⟩]
            ++ List.replicate 2 (⟨some 2, some 2020, 0, 0⟩ : JoinedRow)
            ++ List.replicate 3 ⟨some 3, some 2020, 0, 0⟩
            ++ List.replicate 4 ⟨some 4, some 2020, 0, 0⟩
            ++ List.replicate 5 ⟨some 5, some 2020, 0, 0⟩)) 2020).length - 1) + 4) / 5
      ≤ ((build_segment_year ([⟨some 1, some 2020, 0, 0⟩]
          ++ List.replicate 2 (⟨some 2, some 2020, 0, 0⟩ : JoinedRow)
          ++ List.replicate 3 ⟨some 3, some 2020, 0, 0⟩
          ++ List.replicate 4 ⟨some 4, some 2020, 0, 0⟩
          ++ List.replicate 5 ⟨some 5, some 2020, 0, 0⟩)).filter
            fun r => decide (r.year = 2020)).countP
          (fun r => decide (r.high_risk = 1)) := by
  have hne : cohortTotals (build_segment_year ([⟨some 1, some 2020, 0, 0⟩]
      ++ List.replicate 2 (⟨some 2, some 2020, 0, 0⟩ : JoinedRow)
      ++ List.replicate 3 ⟨some 3, some 2020, 0, 0⟩
      ++ List.replicate 4 ⟨some 4, some 2020, 0, 0⟩
      ++ List.replicate 5 ⟨some 5, some 2020, 0, 0⟩)) 2020 ≠ [] := by
    norm_num [build_segment_year, groupAgg, keyOf, sortSegYear, List.insertionSort,
      List.orderedInsert, addLags, addLagsAux, mkLagged, addLabels, cohortTotals,
      quantile08, List.replicate]
    decide
  exact ⟨hne, (build_high_risk_share _ 2020 hne).1⟩

/-- Witness for C9: one keyed event plus one unassociated event and one undated
event; the single output record has collision total 1, the count of keyed
events. -/
theorem build_totals_from_events_witness :
    (⟨3, 2020, 1, 1, 1, 0, 0, 0, 1⟩ : FeatRow)
        ∈ build_segment_year [⟨some 3, some 2020, 1, 1⟩, ⟨none, some 2020, 1, 1⟩,
            ⟨some 3, none, 1, 1⟩]
    ∧ 1 ≤ (⟨3, 2020, 1, 1, 1, 0, 0, 0, 1⟩ : FeatRow).collisions_total
    ∧ (⟨3, 2020, 1, 1, 1, 0, 0, 0, 1⟩ : FeatRow).collisions_total
        = ([⟨some 3, some 2020, 1, 1⟩, ⟨none, some 2020, 1, 1⟩,
            (⟨some 3, none, 1, 1⟩ : JoinedRow)]).countP
            (fun j => decide (keyOf j = some ((⟨3, 2020, 1, 1, 1, 0, 0, 0, 1⟩ : FeatRow).segId,
              (⟨3, 2020, 1, 1, 1, 0, 0, 0, 1⟩ : FeatRow).year)))
    ∧ ∃ j ∈ [⟨some 3, some 2020, 1, 1⟩, ⟨none, some 2020, 1, 1⟩,
            (⟨some 3, none, 1, 1⟩ : JoinedRow)],
        j.segId = some (⟨3, 2020, 1, 1, 1, 0, 0, 0, 1⟩ : FeatRow).segId
        ∧ j.year = some (⟨3, 2020, 1, 1, 1, 0, 0, 0, 1⟩ : FeatRow).year := by
  have hm : (⟨3, 2020, 1, 1, 1, 0, 0, 0, 1⟩ : FeatRow)
      ∈ build_segment_year [⟨some 3, some 2020, 1, 1⟩, ⟨none, some 2020, 1, 1⟩,
          ⟨some 3, none, 1, 1⟩] := by
    norm_num [build_segment_year, groupAgg, keyOf, sortSegYear, List.insertionSort,
      List.orderedInsert, addLags, addLagsAux, mkLagged, addLabels, cohortTotals, quantile08]
    decide
  have h := build_totals_from_events [⟨some 3, some 2020, 1, 1⟩, ⟨none, some 2020, 1, 1⟩,
      ⟨some 3, none, 1, 1⟩] _ hm
  exact ⟨hm, h.1, h.2.1, h.2.2⟩

/-- Witness for C10: a single-record 2020 cohort contains a high-risk record
and its maximum total 1 is at or above the threshold 1. -/
theorem build_cohort_has_high_risk_witness :
    (∃ r ∈ build_segment_year [(⟨some 1, some 2020, 0, 0⟩ : JoinedRow)], r.year = 2020)
    ∧ (∃ r ∈ build_segment_year [(⟨some 1, some 2020, 0, 0⟩ : JoinedRow)],
        r.year = 2020 ∧ r.high_risk = 1)
    ∧ ∃ m ∈ cohortTotals (build_segment_year [(⟨some 1, some 2020, 0, 0⟩ : JoinedRow)]) 2020,
        (∀ v ∈ cohortTotals (build_segment_year
            [(⟨some 1, some 2020, 0, 0⟩ : JoinedRow)]) 2020, v ≤ m)
        ∧ quantile08 (cohortTotals (build_segment_year
            [(⟨some 1, some 2020, 0, 0⟩ : JoinedRow)]) 2020) ≤ (m : ℚ) := by
  have hne : ∃ r ∈ build_segment_year [(⟨some 1, some 2020, 0, 0⟩ : JoinedRow)],
      r.year = 2020 := by
    refine ⟨⟨1, 2020, 1, 0, 0, 0, 0, 0, 1⟩, ?_, rfl⟩
    norm_num [build_segment_year, groupAgg, keyOf, sortSegYear, List.insertionSort,
      List.orderedInsert, addLags, addLagsAux, mkLagged, addLabels, cohortTotals, quantile08]
  exact ⟨hne, (build_cohort_has_high_risk _ 2020 hne).1,
    (build_cohort_has_high_risk _ 2020 hne).2⟩

end RiskPred
